import Mathlib

/-
Verification of the FluxCharge collector (src/collector.py).

The Python source is shallowly embedded: floating-point values are modelled
as exact rationals, the random source is made an explicit parameter
(`random.random()` becomes a rational in [0,1), `random.uniform(a,b)` a
rational in [a,b], `random.randint(1,4)` a natural in [1,4]), and the SQLite
database becomes an explicit in-memory state threaded through the store
operations.
-/

set_option autoImplicit false

namespace FluxCharge

/-! ## Dates and the calendar classifier -/

/-- A calendar date as carried by `datetime.date`: year, month, day. -/
structure PyDate where
  year : Nat
  month : Nat
  day : Nat
deriving Repr, DecidableEq

/-- Gregorian leap-year rule, as in `datetime`. -/
def isLeapYear (y : Nat) : Bool :=
  decide ((y % 4 = 0 ∧ y % 100 ≠ 0) ∨ y % 400 = 0)

/-- Days in a common year strictly before month `m` (1 = January). -/
def daysBeforeMonth (m : Nat) : Nat :=
  [0, 0, 31, 59, 90, 120, 151, 181, 212, 243, 273, 304, 334].getD m 0

/-- Proleptic Gregorian ordinal of a date (0001-01-01 has ordinal 1),
matching `datetime.date.toordinal`. -/
def toOrdinal (dt : PyDate) : Nat :=
  365 * (dt.year - 1) + (dt.year - 1) / 4 - (dt.year - 1) / 100 + (dt.year - 1) / 400
    + daysBeforeMonth dt.month
    + (if 3 ≤ dt.month ∧ isLeapYear dt.year then 1 else 0)
    + dt.day

/-- Day of week, 0 = Monday .. 6 = Sunday, matching `date.weekday()`
(0001-01-01 is a Monday). -/
def weekday (dt : PyDate) : Nat :=
  (toOrdinal dt - 1) % 7

/-- Zero-pad a natural number to width `w`, as `strftime` does. -/
def padNum (w n : Nat) : String :=
  let s := toString n
  String.mk (List.replicate (w - s.length) (Char.ofNat 48)) ++ s

/-- The string of a date under `strftime("%Y-%m-%d")`: unpadded year (as glibc
prints `%Y`), two-digit month and day. -/
def dateStr (dt : PyDate) : String :=
  toString dt.year ++ ("-") ++ padNum 2 dt.month ++ ("-") ++ padNum 2 dt.day

/-- The year-indexed Swedish holiday table `SWEDISH_HOLIDAYS`; `.get(year, [])`
is modelled by the final else branch. -/
def SWEDISH_HOLIDAYS (year : Nat) : List String :=
  if year = 2025 then
    ["2025-01-01", "2025-01-06", "2025-04-18", "2025-04-20", "2025-04-21",
     "2025-05-01", "2025-05-29", "2025-06-06", "2025-06-20", "2025-06-21",
     "2025-12-24", "2025-12-25", "2025-12-26", "2025-12-31"]
  else if year = 2026 then
    ["2026-01-01", "2026-01-06", "2026-04-03", "2026-04-05", "2026-04-06",
     "2026-05-01", "2026-05-14", "2026-06-06", "2026-06-19", "2026-06-20",
     "2026-12-24", "2026-12-25", "2026-12-26", "2026-12-31"]
  else []

/-- Label returned for a table holiday. -/
def swedishHolidayLabel : String := "Swedish Holiday"

/-- Label returned for a weekend. -/
def weekendLabel : String := "Weekend"

/-- The holiday classifier `is_holiday`: table lookup first, then the
weekend rule, else not a holiday. -/
def is_holiday (dt : PyDate) : Bool × Option String :=
  if dateStr dt ∈ SWEDISH_HOLIDAYS dt.year then (true, some swedishHolidayLabel)
  else if 5 ≤ weekday dt then (true, some weekendLabel)
  else (false, none)

/-- Ordinal of January 1 of a year. -/
def ordJan1 (y : Nat) : Nat := toOrdinal ⟨y, 1, 1⟩

/-- ISO week number, matching `date.isocalendar()[1]`: the week of the
Thursday of the date's week. -/
def isoWeek (dt : PyDate) : Nat :=
  let d := toOrdinal dt
  let thursday := d + 3 - weekday dt
  let y := dt.year
  let iy :=
    if thursday < ordJan1 y then y - 1
    else if ordJan1 (y + 1) ≤ thursday then y + 1
    else y
  (thursday - ordJan1 iy) / 7 + 1

/-- The record built by `get_calendar_context`. -/
structure CalendarContext where
  is_holiday : Bool
  holiday_name : Option String
  day_of_week : Nat
  week_number : Nat
  is_weekend : Bool
  is_school_break : Bool
deriving Repr, DecidableEq

/-- `get_calendar_context`: holiday classification plus weekday, ISO week,
weekend flag and the approximate school-break flag. -/
def get_calendar_context (dt : PyDate) : CalendarContext :=
  let ih := is_holiday dt
  let week := isoWeek dt
  { is_holiday := ih.1
    holiday_name := ih.2
    day_of_week := weekday dt
    week_number := week
    is_weekend := decide (5 ≤ weekday dt)
    is_school_break := decide (week ∈ [7, 8, 9, 27, 28, 29, 30, 31, 32]) }

/-! ## Traffic estimator -/

/-- The record returned by `fetch_traffic_for_location`. -/
structure TrafficData where
  traffic_volume : ℚ
  avg_speed : ℚ
deriving Repr, DecidableEq

/-- The fixed time-of-day base volume table inside `fetch_traffic_for_location`. -/
def baseVolume (hour : Nat) : ℚ :=
  if 7 ≤ hour ∧ hour ≤ 9 then 8 / 10
  else if 16 ≤ hour ∧ hour ≤ 18 then 9 / 10
  else if 10 ≤ hour ∧ hour ≤ 15 then 5 / 10
  else if 19 ≤ hour ∧ hour ≤ 21 then 4 / 10
  else 1 / 10

/-- `fetch_traffic_for_location`: base volume for the current hour plus the
`random.uniform(-0.1, 0.1)` draw `volNoise`, and speed `50` plus the
`random.uniform(-20, 20)` draw `speedNoise`. The function always returns a
record (the `Optional` in its Python signature notwithstanding). -/
def fetch_traffic_for_location (hour : Nat) (volNoise speedNoise : ℚ) :
    Option TrafficData :=
  some { traffic_volume := baseVolume hour + volNoise
         avg_speed := 50 + speedNoise }

/-- The extraction `traffic.get('traffic_volume', 0.5) if traffic else 0.5`
in `simulate_status_with_traffic` (the returned dict always carries the key,
so `.get` reduces to field access; the `else 0.5` is the `none` branch). -/
def trafficVolumeOf (t : Option TrafficData) : ℚ :=
  match t with
  | some tr => tr.traffic_volume
  | none => 5 / 10

/-! ## Occupancy model -/

/-- The three station statuses the simulation can emit. -/
inductive Status where
  | available
  | occupied
  | unknown
deriving Repr, DecidableEq

/-- The occupancy probability computed in `simulate_status_with_traffic`
lines 476-489: traffic times 0.7, then the weekday rush/night `if`/`elif`
adjustment, then the holiday bonus. -/
def base_occupied_prob (traffic_volume : ℚ) (hour wkday : Nat) (is_hol : Bool) : ℚ :=
  let p0 := traffic_volume * (7 / 10)
  let p1 :=
    if wkday < 5 then
      if (7 ≤ hour ∧ hour ≤ 9) ∨ (16 ≤ hour ∧ hour ≤ 18) then p0 + 15 / 100
      else if 22 ≤ hour ∨ hour ≤ 5 then p0 - 3 / 10
      else p0
    else p0
  if is_hol then p1 + 2 / 10 else p1

/-- The sampling step of `simulate_status_with_traffic` lines 491-503:
`rand` is the `random.random()` draw and `connDraw` the `random.randint(1, 4)`
draw used only in the available branch. -/
def draw_status (p rand : ℚ) (connDraw : Nat) : Status × Nat :=
  if rand < 1 - p then (Status.available, connDraw)
  else if rand < 95 / 100 then (Status.occupied, 0)
  else (Status.unknown, 0)

/-- `simulate_status_with_traffic`: fetch traffic for the hour, derive the
occupied probability from traffic, hour, weekday and the holiday flag for
`today`, then sample a status and connector count. -/
def simulate_status_with_traffic (today : PyDate) (hour wkday : Nat)
    (volNoise speedNoise rand : ℚ) (connDraw : Nat) : Status × Nat :=
  let traffic := fetch_traffic_for_location hour volNoise speedNoise
  let traffic_volume := trafficVolumeOf traffic
  let p := base_occupied_prob traffic_volume hour wkday (is_holiday today).1
  draw_status p rand connDraw

/-! ## Time-series store -/

/-- A station dict passed to `add_stations_to_db`; the fields read through
`.get` with a default are optional. -/
structure StationInput where
  external_id : String
  name : String
  latitude : ℚ
  longitude : ℚ
  municipality : Option String
  operator : String
  power_kw : Option ℚ
  connectors : Option String
deriving Repr, DecidableEq

/-- A row of the `stations` table. -/
structure StationRow where
  id : Nat
  external_id : String
  name : String
  latitude : ℚ
  longitude : ℚ
  municipality : String
  operator : String
  power_kw : ℚ
  connectors : String
deriving Repr, DecidableEq

/-- A row of the `status_history` table. -/
structure StatusRow where
  station_id : Nat
  status : String
  available_connectors : Int
deriving Repr, DecidableEq

/-- The database state the store operations act on: the `stations` table with
its AUTOINCREMENT counter, and the `status_history` table. -/
structure DB where
  stations : List StationRow
  status_history : List StatusRow
  next_station_id : Nat
deriving Repr, DecidableEq

/-- The external ids currently present in the `stations` table. -/
def extIds (db : DB) : List String :=
  db.stations.map fun r => r.external_id

/-- One `INSERT OR IGNORE INTO stations` statement: ignored when the
`external_id` already exists (UNIQUE constraint), otherwise a new row is
appended; the Bool is `cursor.rowcount > 0`. -/
def insertStation (db : DB) (s : StationInput) : DB × Bool :=
  if s.external_id ∈ extIds db then (db, false)
  else
    ({ db with
        stations := db.stations ++
          [{ id := db.next_station_id
             external_id := s.external_id
             name := s.name
             latitude := s.latitude
             longitude := s.longitude
             municipality := s.municipality.getD ("Unknown")
             operator := s.operator
             power_kw := s.power_kw.getD 22
             connectors := s.connectors.getD ("") }]
        next_station_id := db.next_station_id + 1 },
      true)

/-- `add_stations_to_db`: insert-or-ignore each station in order, returning
the new state and the count of rows actually inserted. -/
def add_stations_to_db (db : DB) (l : List StationInput) : DB × Nat :=
  match l with
  | [] => (db, 0)
  | s :: rest =>
    let step := insertStation db s
    let next := add_stations_to_db step.1 rest
    (next.1, (if step.2 then 1 else 0) + next.2)

/-- `record_status`: a plain `INSERT INTO status_history` on a fresh
connection. No `PRAGMA foreign_keys = ON` is ever issued, so the declared
FOREIGN KEY is not enforced and the insert succeeds for any `station_id`. -/
def record_status (db : DB) (station_id : Nat) (status : String)
    (available : Int) : DB :=
  { db with status_history := db.status_history ++ [⟨station_id, status, available⟩] }

/-! ## Claim theorems -/

/-- C1: for every traffic volume, hour, weekday and holiday flag, the
occupancy model's base occupied probability equals traffic × 0.7, plus 0.15
when the weekday is below 5 and the hour is in {7,8,9} ∪ {16,17,18}, minus
0.3 when the weekday is below 5 and the hour is ≥ 22 or ≤ 5, plus 0.2 on a
holiday; in particular for traffic 0.5, weekday Monday (0), hour 8 and no
holiday it equals 0.5. -/
theorem base_occupied_prob_formula :
    (∀ (t : ℚ) (h w : Nat) (hol : Bool),
      base_occupied_prob t h w hol =
        t * (7 / 10)
          + (if w < 5 ∧ ((7 ≤ h ∧ h ≤ 9) ∨ (16 ≤ h ∧ h ≤ 18)) then 15 / 100 else 0)
          - (if w < 5 ∧ (22 ≤ h ∨ h ≤ 5) then 3 / 10 else 0)
          + (if hol then 2 / 10 else 0))
    ∧ base_occupied_prob (5 / 10) 8 0 false = 5 / 10 := by
  constructor
  · intro t h w hol
    unfold base_occupied_prob
    split_ifs <;> first | ring1 | (exfalso; omega)
  · norm_num [base_occupied_prob]


/-- C2: for every draw of the occupancy model (with the connector draw in
[1,4], the contract of `random.randint(1, 4)`), the returned available
connector count is 0 when the status is occupied or unknown, and lies in
[1,4] when the status is available. -/
theorem draw_status_spec (p rand : ℚ) (conn : Nat) :
    ((draw_status p rand conn).1 = Status.occupied ∨ (draw_status p rand conn).1 = Status.unknown →
      (draw_status p rand conn).2 = 0)
    ∧ ((draw_status p rand conn).1 = Status.available → (draw_status p rand conn).2 = conn) := by
  unfold draw_status
  split_ifs <;> simp

theorem simulate_status_connector_invariant (today : PyDate) (h w : Nat)
    (vn sn rand : ℚ) (conn : Nat) (hc1 : 1 ≤ conn) (hc2 : conn ≤ 4) :
    (((simulate_status_with_traffic today h w vn sn rand conn).1 = Status.occupied
        ∨ (simulate_status_with_traffic today h w vn sn rand conn).1 = Status.unknown) →
      (simulate_status_with_traffic today h w vn sn rand conn).2 = 0)
    ∧ ((simulate_status_with_traffic today h w vn sn rand conn).1 = Status.available →
      1 ≤ (simulate_status_with_traffic today h w vn sn rand conn).2
        ∧ (simulate_status_with_traffic today h w vn sn rand conn).2 ≤ 4) := by
  have he : simulate_status_with_traffic today h w vn sn rand conn
      = draw_status (base_occupied_prob
          (trafficVolumeOf (fetch_traffic_for_location h vn sn)) h w (is_holiday today).1)
          rand conn := rfl
  have hd := draw_status_spec (base_occupied_prob
    (trafficVolumeOf (fetch_traffic_for_location h vn sn)) h w (is_holiday today).1) rand conn
  rw [he]
  refine ⟨hd.1, fun ha => ?_⟩
  rw [hd.2 ha]
  exact ⟨hc1, hc2⟩

/-- C2 witness: the invariant instantiated at a concrete draw (Monday
2025-06-09, hour 8, no noise, uniform draw 0, connector draw 2). -/
theorem simulate_status_connector_invariant_witness :
    (1 ≤ 2 ∧ 2 ≤ 4)
    ∧ ((((simulate_status_with_traffic ⟨2025, 6, 9⟩ 8 0 0 0 0 2).1 = Status.occupied
        ∨ (simulate_status_with_traffic ⟨2025, 6, 9⟩ 8 0 0 0 0 2).1 = Status.unknown) →
      (simulate_status_with_traffic ⟨2025, 6, 9⟩ 8 0 0 0 0 2).2 = 0)
    ∧ ((simulate_status_with_traffic ⟨2025, 6, 9⟩ 8 0 0 0 0 2).1 = Status.available →
      1 ≤ (simulate_status_with_traffic ⟨2025, 6, 9⟩ 8 0 0 0 0 2).2
        ∧ (simulate_status_with_traffic ⟨2025, 6, 9⟩ 8 0 0 0 0 2).2 ≤ 4)) :=
  ⟨by decide,
   simulate_status_connector_invariant ⟨2025, 6, 9⟩ 8 0 0 0 0 2 (by decide) (by decide)⟩

/-- C3: the base occupied probability is fed unclamped into the comparison
`rand < 1 - p`, so whenever it is ≥ 1 the available branch is unreachable
for every uniform draw in [0,1). -/
theorem simulate_no_clamp_available_unreachable (today : PyDate) (h w : Nat)
    (vn sn rand : ℚ) (conn : Nat)
    (hp : 1 ≤ base_occupied_prob (trafficVolumeOf (fetch_traffic_for_location h vn sn))
        h w (is_holiday today).1)
    (h0 : 0 ≤ rand) (_hr : rand < 1) :
    (simulate_status_with_traffic today h w vn sn rand conn).1 ≠ Status.available := by
  unfold simulate_status_with_traffic draw_status
  have hnot : ¬ rand < 1 - base_occupied_prob
      (trafficVolumeOf (fetch_traffic_for_location h vn sn)) h w (is_holiday today).1 := by
    push_neg
    linarith
  rw [if_neg hnot]
  split_ifs <;> simp

/-- C3 witness: on the holiday 2025-06-06 at hour 17 with traffic noise 0.1
the base probability is 21/20 ≥ 1, and the draw 0 does not yield available. -/
theorem simulate_no_clamp_available_unreachable_witness :
    1 ≤ base_occupied_prob (trafficVolumeOf (fetch_traffic_for_location 17 (1 / 10) 0))
        17 0 (is_holiday ⟨2025, 6, 6⟩).1
    ∧ (0 : ℚ) ≤ 0 ∧ (0 : ℚ) < 1
    ∧ (simulate_status_with_traffic ⟨2025, 6, 6⟩ 17 0 (1 / 10) 0 0 1).1 ≠ Status.available := by
  have hhol : (is_holiday ⟨2025, 6, 6⟩).1 = true := by decide
  have hp : 1 ≤ base_occupied_prob
      (trafficVolumeOf (fetch_traffic_for_location 17 (1 / 10) 0)) 17 0
      (is_holiday ⟨2025, 6, 6⟩).1 := by
    simp only [trafficVolumeOf, fetch_traffic_for_location, hhol]
    norm_num [base_occupied_prob, baseVolume]
  exact ⟨hp, le_refl 0, by norm_num,
    simulate_no_clamp_available_unreachable ⟨2025, 6, 6⟩ 17 0 (1 / 10) 0 0 1 hp
      (le_refl 0) (by norm_num)⟩

/-- C4: the holiday classifier returns (true, "Swedish Holiday") exactly when
the date's ISO string is listed in the holiday table for its year, otherwise
(true, "Weekend") exactly on Saturdays and Sundays, otherwise (false, none);
the table lookup takes precedence, the function is deterministic in the date,
and the known holiday 2025-06-06 is classified as a Swedish Holiday. -/
theorem is_holiday_classification (dt : PyDate) :
    (is_holiday dt = (true, some swedishHolidayLabel)
      ↔ dateStr dt ∈ SWEDISH_HOLIDAYS dt.year)
    ∧ (is_holiday dt = (true, some weekendLabel)
      ↔ (dateStr dt ∉ SWEDISH_HOLIDAYS dt.year ∧ 5 ≤ weekday dt))
    ∧ (is_holiday dt = (false, none)
      ↔ (dateStr dt ∉ SWEDISH_HOLIDAYS dt.year ∧ weekday dt < 5))
    ∧ is_holiday ⟨2025, 6, 6⟩ = (true, some swedishHolidayLabel) := by
  refine ⟨?_, ?_, ?_, by decide⟩ <;>
    · unfold is_holiday
      split_ifs with h1 h2 <;>
        simp_all [swedishHolidayLabel, weekendLabel, Nat.lt_iff_add_one_le]

/-- C5: for every hour and bounded volume noise, the traffic record returned
by the estimator has traffic_volume equal to the fixed time-of-day base
(0.8 for hours 7-9, 0.9 for 16-18, 0.5 for 10-15, 0.4 for 19-21, 0.1
otherwise) plus the noise, and that value lies in [0,1]. -/
theorem fetch_traffic_volume_spec (h : Nat) (vn sn : ℚ)
    (hlo : -(1 / 10) ≤ vn) (hhi : vn ≤ 1 / 10) :
    ∀ r : TrafficData, fetch_traffic_for_location h vn sn = some r →
      r.traffic_volume =
        (if 7 ≤ h ∧ h ≤ 9 then 8 / 10
         else if 16 ≤ h ∧ h ≤ 18 then 9 / 10
         else if 10 ≤ h ∧ h ≤ 15 then 5 / 10
         else if 19 ≤ h ∧ h ≤ 21 then 4 / 10
         else 1 / 10) + vn
      ∧ 0 ≤ r.traffic_volume ∧ r.traffic_volume ≤ 1 := by
  intro r hr
  have hr2 : r = { traffic_volume := baseVolume h + vn, avg_speed := 50 + sn } := by
    have := hr.symm
    simpa [fetch_traffic_for_location] using this
  subst hr2
  refine ⟨rfl, ?_, ?_⟩ <;>
    · simp only [baseVolume]
      split_ifs <;> linarith

/-- C5 witness: at hour 12 with zero noise the estimator returns volume 0.5,
which matches the midday base and lies in [0,1]. -/
theorem fetch_traffic_volume_spec_witness :
    (-(1 / 10) ≤ (0 : ℚ)) ∧ ((0 : ℚ) ≤ 1 / 10)
    ∧ ((fetch_traffic_for_location 12 0 0
        = some { traffic_volume := baseVolume 12 + 0, avg_speed := 50 + 0 })
    ∧ (({ traffic_volume := baseVolume 12 + 0, avg_speed := 50 + 0 } : TrafficData).traffic_volume =
        (if 7 ≤ 12 ∧ 12 ≤ 9 then 8 / 10
         else if 16 ≤ 12 ∧ 12 ≤ 18 then 9 / 10
         else if 10 ≤ 12 ∧ 12 ≤ 15 then 5 / 10
         else if 19 ≤ 12 ∧ 12 ≤ 21 then 4 / 10
         else 1 / 10) + 0
      ∧ 0 ≤ ({ traffic_volume := baseVolume 12 + 0, avg_speed := 50 + 0 } : TrafficData).traffic_volume
      ∧ ({ traffic_volume := baseVolume 12 + 0, avg_speed := 50 + 0 } : TrafficData).traffic_volume ≤ 1)) :=
  ⟨by norm_num, by norm_num,
   rfl,
   fetch_traffic_volume_spec 12 0 0 (by norm_num) (by norm_num)
     { traffic_volume := baseVolume 12 + 0, avg_speed := 50 + 0 } rfl⟩

/-- C8: for every timestamp and bounded speed noise, the returned avg_speed
equals 50 plus the noise with no clamping, hence lies in [30, 70] and is
non-negative. -/
theorem fetch_traffic_speed_spec (h : Nat) (vn sn : ℚ)
    (hlo : -20 ≤ sn) (hhi : sn ≤ 20) :
    ∀ r : TrafficData, fetch_traffic_for_location h vn sn = some r →
      r.avg_speed = 50 + sn ∧ 30 ≤ r.avg_speed ∧ r.avg_speed ≤ 70 ∧ 0 ≤ r.avg_speed := by
  intro r hr
  have hr2 : r = { traffic_volume := baseVolume h + vn, avg_speed := 50 + sn } := by
    have := hr.symm
    simpa [fetch_traffic_for_location] using this
  subst hr2
  refine ⟨rfl, ?_, ?_, ?_⟩ <;> simp <;> linarith

/-- C8 witness: at hour 3 with speed noise -20 the returned avg_speed is 30,
within [30, 70] and non-negative. -/
theorem fetch_traffic_speed_spec_witness :
    (-20 ≤ (-20 : ℚ)) ∧ ((-20 : ℚ) ≤ 20)
    ∧ (({ traffic_volume := baseVolume 3 + 0, avg_speed := 50 + (-20) } : TrafficData).avg_speed
        = 50 + (-20)
      ∧ 30 ≤ ({ traffic_volume := baseVolume 3 + 0, avg_speed := 50 + (-20) } : TrafficData).avg_speed
      ∧ ({ traffic_volume := baseVolume 3 + 0, avg_speed := 50 + (-20) } : TrafficData).avg_speed ≤ 70
      ∧ 0 ≤ ({ traffic_volume := baseVolume 3 + 0, avg_speed := 50 + (-20) } : TrafficData).avg_speed) :=
  ⟨by norm_num, by norm_num,
   fetch_traffic_speed_spec 3 0 (-20) (by norm_num) (by norm_num)
     { traffic_volume := baseVolume 3 + 0, avg_speed := 50 + (-20) } rfl⟩

/-- C9: the calendar context always satisfies is_weekend = (day_of_week ≥ 5),
and every weekend day is also classified as a holiday. -/
theorem calendar_weekend_implies_holiday (dt : PyDate) :
    (get_calendar_context dt).is_weekend
      = decide (5 ≤ (get_calendar_context dt).day_of_week)
    ∧ ((get_calendar_context dt).is_weekend = false
      ∨ (get_calendar_context dt).is_holiday = true) := by
  constructor
  · rfl
  · by_cases hw : 5 ≤ weekday dt
    · right
      simp only [get_calendar_context, is_holiday]
      split_ifs <;> simp_all
    · left
      simp [get_calendar_context, hw]

/-- C10: the traffic estimator returns a record for every input, so the
occupancy model's 0.5 fallback for missing traffic is never taken: the
volume it uses is always the fetched one. -/
theorem fetch_traffic_never_none (h : Nat) (vn sn : ℚ) :
    ∃ t : TrafficData, fetch_traffic_for_location h vn sn = some t
      ∧ trafficVolumeOf (fetch_traffic_for_location h vn sn) = t.traffic_volume :=
  ⟨{ traffic_volume := baseVolume h + vn, avg_speed := 50 + sn }, rfl, rfl⟩

/-- C6 (code bug): `record_status` issues a plain INSERT on a fresh SQLite
connection that never enables foreign-key enforcement, so for a station id
absent from the stations table the insert succeeds and leaves a dangling
status row, rather than failing with a storage error as specified. Evaluated
at the failing input: empty stations table, station id 999. -/
theorem record_status_dangling_row :
    (record_status ⟨[], [], 1⟩ 999 ("available") 2).status_history
      = [⟨999, ("available"), 2⟩]
    ∧ (record_status ⟨[], [], 1⟩ 999 ("available") 2).stations = [] :=
  ⟨rfl, rfl⟩

theorem insertStation_extIds_mono (db : DB) (s : StationInput) (e : String)
    (he : e ∈ extIds db) : e ∈ extIds (insertStation db s).1 := by
  unfold insertStation
  split_ifs <;> simp_all [extIds]

theorem insertStation_covers (db : DB) (s : StationInput) :
    s.external_id ∈ extIds (insertStation db s).1 := by
  unfold insertStation
  split_ifs with h
  · exact h
  · simp [extIds]

theorem add_stations_extIds_mono (l : List StationInput) (db : DB) (e : String)
    (he : e ∈ extIds db) : e ∈ extIds (add_stations_to_db db l).1 := by
  induction l generalizing db with
  | nil => simpa [add_stations_to_db] using he
  | cons a rest ih =>
    simp only [add_stations_to_db]
    exact ih _ (insertStation_extIds_mono db a e he)

theorem add_stations_covers (l : List StationInput) (db : DB) (s : StationInput)
    (hs : s ∈ l) : s.external_id ∈ extIds (add_stations_to_db db l).1 := by
  induction l generalizing db with
  | nil => cases hs
  | cons a rest ih =>
    simp only [add_stations_to_db]
    cases hs with
    | head => exact add_stations_extIds_mono rest _ _ (insertStation_covers db s)
    | tail _ hmem => exact ih _ hmem

theorem add_stations_noop (l : List StationInput) (db : DB)
    (hall : ∀ s ∈ l, s.external_id ∈ extIds db) :
    add_stations_to_db db l = (db, 0) := by
  induction l with
  | nil => rfl
  | cons a rest ih =>
    have ha : a.external_id ∈ extIds db := hall a (List.mem_cons_self a rest)
    have hstep : insertStation db a = (db, false) := by
      unfold insertStation
      rw [if_pos ha]
    simp only [add_stations_to_db, hstep]
    rw [ih (fun s hs => hall s (List.mem_cons_of_mem a hs))]
    simp

theorem insertStation_length (db : DB) (s : StationInput) :
    (insertStation db s).1.stations.length
      = db.stations.length + (if (insertStation db s).2 then 1 else 0) := by
  unfold insertStation
  split_ifs <;> simp_all

theorem add_stations_length (l : List StationInput) (db : DB) :
    (add_stations_to_db db l).1.stations.length
      = db.stations.length + (add_stations_to_db db l).2 := by
  induction l generalizing db with
  | nil => rfl
  | cons a rest ih =>
    simp only [add_stations_to_db]
    rw [ih, insertStation_length]
    omega

theorem insertStation_stations (db : DB) (s : StationInput) :
    ∃ tail, (insertStation db s).1.stations = db.stations ++ tail := by
  unfold insertStation
  split_ifs
  · exact ⟨[], by simp⟩
  · exact ⟨_, rfl⟩

theorem add_stations_stations (l : List StationInput) (db : DB) :
    ∃ tail, (add_stations_to_db db l).1.stations = db.stations ++ tail := by
  induction l generalizing db with
  | nil => exact ⟨[], by simp [add_stations_to_db]⟩
  | cons a rest ih =>
    obtain ⟨t1, h1⟩ := insertStation_stations db a
    obtain ⟨t2, h2⟩ := ih (insertStation db a).1
    refine ⟨t1 ++ t2, ?_⟩
    simp only [add_stations_to_db]
    rw [h2, h1, List.append_assoc]

/-- C7: `add_stations_to_db` never removes or overwrites an existing row
(the prior table is a prefix of the new one), returns exactly the number of
rows actually inserted, and is idempotent: a second call with the same list
changes nothing and returns 0. -/
theorem add_stations_upsert_idempotent (db : DB) (l : List StationInput) :
    (∃ tail, (add_stations_to_db db l).1.stations = db.stations ++ tail)
    ∧ (add_stations_to_db db l).1.stations.length
        = db.stations.length + (add_stations_to_db db l).2
    ∧ add_stations_to_db (add_stations_to_db db l).1 l
        = ((add_stations_to_db db l).1, 0) := by
  refine ⟨add_stations_stations l db, add_stations_length l db, ?_⟩
  exact add_stations_noop l _ (fun s hs => add_stations_covers l db s hs)

end FluxCharge
